import Mathlib

/-!
Verification of the London house-price prediction service (`app.py`).

The Python code is shallowly embedded: Python strings become lists of
Unicode code points (`PyStr`), Python dicts become association lists,
numeric values become exact rationals, exceptions become `Option`/sum
results, and the filesystem/network effects of the model cache are made
explicit as state passed in and events passed out.
-/

namespace LondonHouse

/-! ## Request handlers -/

/-- Python strings, modelled as lists of Unicode code points. -/
abbrev PyStr := List Nat

/-- Code points of a Lean string literal, for writing concrete Python strings. -/
def ps (s : String) : PyStr := s.data.map Char.toNat

/-- One code point of Python `str.upper()` (ASCII case mapping). -/
def upperChar (c : Nat) : Nat := if 97 ≤ c ∧ c ≤ 122 then c - 32 else c

/-- One code point of Python `str.lower()` (ASCII case mapping). -/
def lowerChar (c : Nat) : Nat := if 65 ≤ c ∧ c ≤ 90 then c + 32 else c

/-- Whitespace removed by Python `str.strip()` (ASCII whitespace). -/
def isPySpace (c : Nat) : Bool :=
  decide (c = 32 ∨ c = 9 ∨ c = 10 ∨ c = 13 ∨ c = 11 ∨ c = 12)

/-- Python `s.strip()`: drop leading and trailing whitespace. -/
def pyStrip (s : PyStr) : PyStr :=
  ((s.dropWhile isPySpace).reverse.dropWhile isPySpace).reverse

/-- Python `s.upper()`. -/
def pyUpper (s : PyStr) : PyStr := s.map upperChar

/-- Python `s.rstrip(cs)`: drop trailing characters that are in `cs`. -/
def pyRstrip (cs : PyStr) (s : PyStr) : PyStr :=
  (s.reverse.dropWhile (fun c => cs.contains c)).reverse

/-- The literal character set of the source's `rstrip` call on line 23 of
`app.py`: the uppercase letters with the letter I absent. -/
def RSTRIP_LETTERS : PyStr := ps "ABCDEFGHJKLMNOPQRSTUVWXYZ"

/-- A decimal coordinate with four fractional digits, as an exact rational:
`q4 515018 = 51.5018`. -/
def q4 (n : Int) : ℚ := mkRat n 10000

/-- `POSTCODE_COORDS` from `app.py`: outcode prefix → (lat, lon). -/
def POSTCODE_COORDS : List (PyStr × (ℚ × ℚ)) :=
  [ (ps "SW1", (q4 515018, q4 (-1416))), (ps "SW3", (q4 514920, q4 (-1669))),
    (ps "SW6", (q4 514759, q4 (-2060))), (ps "SW7", (q4 514965, q4 (-1746))),
    (ps "SW8", (q4 514782, q4 (-1369))), (ps "SW9", (q4 514653, q4 (-1126))),
    (ps "SE1", (q4 515050, q4 (-850))), (ps "SE11", (q4 514880, q4 (-1065))),
    (ps "EC1", (q4 515246, q4 (-985))), (ps "WC2", (q4 515149, q4 (-1236))) ]

/-- `DEFAULT_LON_LAT` from `app.py` (central London fallback, 51.5074 / -0.1278). -/
def DEFAULT_LON_LAT : ℚ × ℚ := (q4 515074, q4 (-1278))

/-- `d.get(k, dflt)` on an association list (Python dict lookup with default). -/
def assocGetD {α β : Type} [DecidableEq α] : List (α × β) → α → β → β
  | [], _, dflt => dflt
  | p :: d, k, dflt => if p.1 = k then p.2 else assocGetD d k dflt

/-- The lookup key computed on line 23 of `app.py`:
`oc if len(oc) <= 3 else oc[:3].rstrip("ABCDEFGHJKLMNOPQRSTUVWXYZ")`. -/
def lookupKey (oc : PyStr) : PyStr :=
  if oc.length ≤ 3 then oc else pyRstrip RSTRIP_LETTERS (oc.take 3)

/-- `coords_from_postcode_area` from `app.py`.  The argument is `none` for
Python `None`; `if not outcode` is true exactly for `None` and `""`. -/
def coords_from_postcode_area : Option PyStr → ℚ × ℚ
  | none => DEFAULT_LON_LAT
  | some s =>
    if s = [] then DEFAULT_LON_LAT
    else
      assocGetD POSTCODE_COORDS (lookupKey (pyUpper (pyStrip s))) DEFAULT_LON_LAT

/-- An ASCII letter of either case. -/
def isAlphaChar (c : Nat) : Bool := decide ((65 ≤ c ∧ c ≤ 90) ∨ (97 ≤ c ∧ c ≤ 122))

/-- The key derivation as the spec words it: strip ALL trailing alphabetic
characters from the slice.  (The code's `rstrip` character set omits the
letter I; the two key derivations are compared through the table lookup.) -/
def stripTrailingAlphaSpec (s : PyStr) : PyStr :=
  (s.reverse.dropWhile isAlphaChar).reverse

/-- A Python value held in a request-handling dict: `None`, a string, or a
float (modelled as an exact rational). -/
inductive Val : Type
  | none : Val
  | str : PyStr → Val
  | num : ℚ → Val
deriving DecidableEq

/-- A Python dict with string keys, as an association list in insertion
order. -/
abbrev PyDict := List (PyStr × Val)

/-- `form.get(k)` / association lookup: first value under `k`, if any. -/
def assocGet? {α β : Type} [DecidableEq α] : List (α × β) → α → Option β
  | [], _ => Option.none
  | p :: d, k => if p.1 = k then some p.2 else assocGet? d k

/-- Python dict assignment `d[k] = v`: replace in place, else append. -/
def dictSet : PyDict → PyStr → Val → PyDict
  | [], k, v => [(k, v)]
  | p :: d, k, v => if p.1 = k then (k, v) :: d else p :: dictSet d k v

/-- An ASCII digit. -/
def isDigitChar (c : Nat) : Bool := decide (48 ≤ c ∧ c ≤ 57)

/-- Numeric value of a digit string, most significant digit first. -/
def digitsVal (l : PyStr) : Nat := l.foldl (fun a c => a * 10 + (c - 48)) 0

/-- The exponent of a float literal, after the letter e/E: an optional sign
followed by digits that must consume the rest of the literal. -/
def parseExpPart (l : PyStr) : Option Int :=
  let core : PyStr → Option Int := fun d =>
    if d ≠ [] ∧ d.all isDigitChar then some (digitsVal d) else Option.none
  match l with
  | [] => Option.none
  | c :: rest =>
    if c = 43 then core rest
    else if c = 45 then (core rest).map Neg.neg
    else core l

/-- The exact rational d · 10^e, built from integer arithmetic and one final
`mkRat` so that concrete values evaluate inside the kernel. -/
def sciVal (d : Nat) (e : Int) : ℚ :=
  if 0 ≤ e then mkRat (d * 10 ^ e.toNat) 1 else mkRat d (10 ^ (-e).toNat)

/-- The body of a Python float literal after the sign: digits, an optional
point with further digits, and an optional exponent.  (`inf`/`nan`, which are
not finite numbers, and digit-group underscores are not modelled.) -/
def parseFloatBody (l : PyStr) : Option ℚ :=
  let ip := l.takeWhile isDigitChar
  let r1 := l.dropWhile isDigitChar
  match r1 with
  | [] => if ip = [] then Option.none else some (mkRat (digitsVal ip) 1)
  | c :: r2 =>
    if c = 46 then
      let fp := r2.takeWhile isDigitChar
      let r3 := r2.dropWhile isDigitChar
      if ip = [] ∧ fp = [] then Option.none
      else
        match r3 with
        | [] => some (sciVal (digitsVal ip * 10 ^ fp.length + digitsVal fp)
            (-(fp.length : Int)))
        | e :: r4 =>
          if e = 101 ∨ e = 69 then
            (parseExpPart r4).map fun ex =>
              sciVal (digitsVal ip * 10 ^ fp.length + digitsVal fp) (ex - fp.length)
          else Option.none
    else if c = 101 ∨ c = 69 then
      if ip = [] then Option.none
      else (parseExpPart r2).map fun ex => sciVal (digitsVal ip) ex
    else Option.none

/-- Python `float(s)` on a string: surrounding whitespace is allowed, then an
optional sign and the literal body.  `Option.none` models `ValueError`. -/
def pyFloatOfStr (s : PyStr) : Option ℚ :=
  match pyStrip s with
  | [] => Option.none
  | c :: rest =>
    if c = 43 then parseFloatBody rest
    else if c = 45 then (parseFloatBody rest).map Neg.neg
    else parseFloatBody (c :: rest)

/-- Python `float(v)` on the values these dicts hold: floats stay themselves,
strings are parsed, `float(None)` raises (`Option.none`). -/
def pyFloatOfVal : Val → Option ℚ
  | Val.none => Option.none
  | Val.str s => pyFloatOfStr s
  | Val.num q => some q

/-- `FEATURES` from `app.py`: the ten feature names, in model column order. -/
def FEATURES : List PyStr :=
  [ps "latitude", ps "longitude", ps "floorAreaSqM", ps "bedrooms",
   ps "bathrooms", ps "livingRooms", ps "propertyType", ps "tenure",
   ps "currentEnergyRating", ps "postcodeArea"]

/-- The keys both handlers cast with `float(...)`; this literal list appears
in `predict_form` and `predict`. -/
def NUMERIC_FIELDS : List PyStr :=
  [ps "latitude", ps "longitude", ps "floorAreaSqM", ps "bedrooms",
   ps "bathrooms", ps "livingRooms"]

/-- The cast of one form value in `predict_form`:
`data[k] = float(v) if v not in ("", None) else 0.0`. -/
def castFormVal (v : Val) : Option ℚ :=
  if v = Val.none ∨ v = Val.str [] then some 0 else pyFloatOfVal v

/-- One iteration of the cast loop in `predict_form`. -/
def castStep (d : PyDict) (k : PyStr) : Option PyDict :=
  (castFormVal (assocGetD d k Val.none)).map fun q => dictSet d k (Val.num q)

/-- The row handed to the model: `pd.DataFrame([data], columns=FEATURES)`
selects the `FEATURES` columns in order. -/
def toModelRow (d : PyDict) : List Val := FEATURES.map fun k => assocGetD d k Val.none

/-- The dict comprehension opening `predict_form`:
`{k: request.form.get(k) for k in FEATURES if k not in ["latitude", "longitude"]}`. -/
def predict_form_data (form : List (PyStr × PyStr)) : PyDict :=
  (FEATURES.filter fun k => decide (k ≠ ps "latitude" ∧ k ≠ ps "longitude")).map
    fun k => (k, (assocGet? form k).elim Val.none Val.str)

/-- The cast loop of `predict_form`, over a list of keys: each step raises
(`Option.none`) or updates the dict. -/
def castFold (ks : List PyStr) (d : PyDict) : Option PyDict :=
  ks.foldl (fun od k => od.bind fun d => castStep d k) (some d)

/-- The rest of `predict_form` after the comprehension: auto-fill lat/lon from
the postcode area, run the numeric cast loop, and build the model row.  `pc`
is `data.get("postcodeArea", "")`, which is the submitted form value since the
comprehension always stores that key (the `""` default is dead). -/
def predict_form_core (data0 : PyDict) (pc : Option PyStr) : Option (List Val) :=
  let c := coords_from_postcode_area pc
  let data1 :=
    dictSet (dictSet data0 (ps "latitude") (Val.num c.1)) (ps "longitude") (Val.num c.2)
  (castFold NUMERIC_FIELDS data1).map toModelRow

/-- `predict_form` from `app.py`, up to the feature row handed to the external
predictor: `Option.none` models an uncaught exception (HTTP 500), `some row`
the single-row frame passed to `model_predict`. -/
def predict_form (form : List (PyStr × PyStr)) : Option (List Val) :=
  predict_form_core (predict_form_data form) (assocGet? form (ps "postcodeArea"))

/-- The response of `POST /predict`: a 400 carrying the missing-field list, a
500 from an uncaught exception in the float casts, or the feature row handed
to the external predictor. -/
inductive PredictResp : Type
  | badRequest : List PyStr → PredictResp
  | serverError : PredictResp
  | ok : List Val → PredictResp
deriving DecidableEq

/-- One iteration of the JSON cast loop: `row[k] = float(row[k])` — no
empty-string defaulting on this path. -/
def jsonCastStep (d : PyDict) (k : PyStr) : Option PyDict :=
  (pyFloatOfVal (assocGetD d k Val.none)).map fun q => dictSet d k (Val.num q)

/-- `predict` from `app.py`, on an already-parsed JSON object. -/
def predict (payload : PyDict) : PredictResp :=
  let missing := FEATURES.filter fun f => !(payload.any fun p => decide (p.1 = f))
  if missing ≠ [] then PredictResp.badRequest missing
  else
    let row : PyDict := FEATURES.map fun k => (k, assocGetD payload k Val.none)
    match NUMERIC_FIELDS.foldl (fun od k => od.bind fun d => jsonCastStep d k) (some row) with
    | Option.none => PredictResp.serverError
    | some d => PredictResp.ok (toModelRow d)

/-- The `name` attributes of the inputs in the form rendered by `INDEX_HTML`
(`GET /`), in document order.  Note `floorAreaSQM` with a capital Q, unlike
the `floorAreaSqM` feature key. -/
def INDEX_HTML_FORM_FIELDS : List PyStr :=
  [ps "floorAreaSQM", ps "bedrooms", ps "bathrooms", ps "livingRooms",
   ps "propertyType", ps "tenure", ps "currentEnergyRating", ps "postcodeArea"]

/-- A chunk of the streamed HTTP body (a byte list). -/
abbrev Chunk := List Nat

/-- An observable effect of `download_model_if_needed`. -/
inductive CacheEvent : Type
  | fetch : CacheEvent
  | write : Chunk → CacheEvent
deriving DecidableEq

/-- The fixed local cache file name from `app.py` (`model_cache.pkl`; the
directory prefix `os.path.dirname(__file__)` is deployment-dependent and not
modelled). -/
def MODEL_PATH : PyStr := ps "model_cache.pkl"

/-- Outcome of `download_model_if_needed`: either the function returns
normally — `ok` carries its Python return value, an `Option PyStr` because a
string-returning variant is expressible but the source body has no `return`
statement, so every normal exit returns `None` — or the exception of a
network failure / non-success status propagates (`error`). -/
inductive CacheResult : Type
  | ok : Option PyStr → CacheResult
  | error : CacheResult
deriving DecidableEq

/-- `download_model_if_needed` from `app.py`.  `cache` is the content of the
file at `MODEL_PATH` (`none` when absent); `remote` is what the HTTP GET
would deliver (`Except.error` for a network failure or a `raise_for_status`
status, `Except.ok chunks` for the streamed body).  Produces the events in
order, the new cache content, and the outcome; `if chunk:` skips falsy
(empty) chunks.  Neither branch of the source has a `return` statement, so
both normal exits return `None` (`CacheResult.ok Option.none`). -/
def download_model_if_needed (cache : Option (List Nat))
    (remote : Except Unit (List Chunk)) :
    List CacheEvent × Option (List Nat) × CacheResult :=
  match cache with
  | some content => ([], some content, CacheResult.ok Option.none)
  | Option.none =>
    match remote with
    | Except.error _ => ([CacheEvent.fetch], Option.none, CacheResult.error)
    | Except.ok chunks =>
      ([CacheEvent.fetch] ++
          (chunks.filter fun c => decide (c ≠ [])).map CacheEvent.write,
        some ((chunks.filter fun c => decide (c ≠ [])).flatten),
        CacheResult.ok Option.none)

/-- Number of network fetches among the recorded events. -/
def countFetch (evs : List CacheEvent) : Nat :=
  (evs.filter fun e => decide (e = CacheEvent.fetch)).length

/-- A form submission where the numeric field "bedrooms" holds the
non-numeric, non-empty value "abc". -/
def C1_badForm : List (PyStr × PyStr) :=
  [(ps "floorAreaSQM", ps "50"), (ps "bedrooms", ps "abc"),
   (ps "bathrooms", ps "1"), (ps "livingRooms", ps "1"),
   (ps "propertyType", ps "Flat"), (ps "tenure", ps "Leasehold"),
   (ps "currentEnergyRating", ps "C"), (ps "postcodeArea", ps "SW1")]

/-- A submission exactly as the rendered HTML form would send it (all eight
rendered field names, browser-validated numeric values). -/
def C9_renderedForm : List (PyStr × PyStr) :=
  [(ps "floorAreaSQM", ps "85"), (ps "bedrooms", ps "2"),
   (ps "bathrooms", ps "1"), (ps "livingRooms", ps "1"),
   (ps "propertyType", ps "Flat"), (ps "tenure", ps "Leasehold"),
   (ps "currentEnergyRating", ps "C"), (ps "postcodeArea", ps "SW1")]

/-- The feature row `predict_form` builds from `C9_renderedForm`. -/
def C9_renderedRow : List Val :=
  [Val.num (q4 515018), Val.num (q4 (-1416)), Val.num 0, Val.num 2, Val.num 1,
   Val.num 1, Val.str (ps "Flat"), Val.str (ps "Leasehold"), Val.str (ps "C"),
   Val.str (ps "SW1")]

/-- A JSON payload holding nine of the ten required keys — "postcodeArea" is
absent. -/
def C4_payload : PyDict :=
  [(ps "latitude", Val.num (mkRat 515 10)), (ps "longitude", Val.num (mkRat (-12) 100)),
   (ps "floorAreaSqM", Val.num 50), (ps "bedrooms", Val.num 2),
   (ps "bathrooms", Val.num 1), (ps "livingRooms", Val.num 1),
   (ps "propertyType", Val.str (ps "Flat")), (ps "tenure", Val.str (ps "Leasehold")),
   (ps "currentEnergyRating", Val.str (ps "C"))]

/-- The pair of forms used by the C8 witness: they differ only in a submitted
"latitude" field. -/
def C8_form1 : List (PyStr × PyStr) := [(ps "latitude", ps "0"), (ps "postcodeArea", ps "SW1")]

/-- Same as `C8_form1` except for the submitted latitude value. -/
def C8_form2 : List (PyStr × PyStr) := [(ps "latitude", ps "99"), (ps "postcodeArea", ps "SW1")]

/-- The feature row `predict_form` builds from `C8_form1` (and `C8_form2`):
the lat/lon columns hold the geocoded SW1 pair, not the submitted latitude. -/
def C8_row : List Val :=
  [Val.num (q4 515018), Val.num (q4 (-1416)), Val.num 0, Val.num 0, Val.num 0,
   Val.num 0, Val.none, Val.none, Val.none, Val.str (ps "SW1")]

/-- An association-list lookup yields the default or the value of some entry. -/
theorem assocGetD_self_or_mem {α β : Type} [DecidableEq α] (t : List (α × β)) (k : α) (d : β) :
    assocGetD t k d = d ∨ ∃ p ∈ t, assocGetD t k d = p.2 := by
  induction t with
  | nil => exact Or.inl rfl
  | cons p t ih =>
    by_cases h : p.1 = k
    · exact Or.inr ⟨p, List.mem_cons_self p t, by simp [assocGetD, h]⟩
    · rcases ih with h1 | ⟨q, hq, h2⟩
      · exact Or.inl (by simp [assocGetD, h, h1])
      · exact Or.inr ⟨q, List.mem_cons_of_mem p hq, by simp [assocGetD, h, h2]⟩

/-- An association-list lookup of a key matching no entry yields the default. -/
theorem assocGetD_eq_default {α β : Type} [DecidableEq α] (t : List (α × β)) (k : α) (d : β)
    (h : ∀ p ∈ t, p.1 ≠ k) : assocGetD t k d = d := by
  induction t with
  | nil => rfl
  | cons p t ih =>
    have hp : p.1 ≠ k := h p (List.mem_cons_self p t)
    simp only [assocGetD, if_neg hp]
    exact ih fun q hq => h q (List.mem_cons_of_mem p hq)

/-- `dropWhile` never lengthens a list. -/
theorem dropWhile_length_le {α : Type} (p : α → Bool) (l : List α) :
    (l.dropWhile p).length ≤ l.length := by
  induction l with
  | nil => exact Nat.le_refl _
  | cons a l ih =>
    rw [List.dropWhile_cons]
    split
    · exact Nat.le_succ_of_le ih
    · exact Nat.le_refl _

/-- The key computed by `lookupKey` never has more than 3 characters. -/
theorem lookupKey_length_le (oc : PyStr) : (lookupKey oc).length ≤ 3 := by
  unfold lookupKey
  split
  · assumption
  · calc (pyRstrip RSTRIP_LETTERS (oc.take 3)).length
        ≤ (oc.take 3).reverse.length := by
          unfold pyRstrip
          rw [List.length_reverse]
          exact dropWhile_length_le _ _
    _ ≤ 3 := by rw [List.length_reverse, List.length_take]; exact min_le_left _ _

example : coords_from_postcode_area (some (ps "SW1")) = (q4 515018, q4 (-1416)) := by decide

example : coords_from_postcode_area (some (ps " sw1a 2aa ")) = (q4 515018, q4 (-1416)) := by
  decide

example : coords_from_postcode_area (some (ps "ZZ9")) = DEFAULT_LON_LAT := by decide

example : coords_from_postcode_area (some (ps "SE11")) = (q4 515050, q4 (-850)) := by decide

/-- The characters of the source's `rstrip` set are exactly the uppercase
letters other than I. -/
theorem rstrip_contains_iff (c : Nat) :
    (RSTRIP_LETTERS.contains c = true) ↔ (65 ≤ c ∧ c ≤ 90 ∧ c ≠ 73) := by
  have h : RSTRIP_LETTERS = [65, 66, 67, 68, 69, 70, 71, 72, 74, 75, 76, 77, 78,
      79, 80, 81, 82, 83, 84, 85, 86, 87, 88, 89, 90] := by decide
  rw [h]
  simp
  omega

/-- Comparing `dropWhile` for a weaker and a stronger predicate: either they
agree, or the stronger one drops strictly more and the weaker one stops at an
element satisfying the stronger predicate. -/
theorem dropWhile_imp_cases {α : Type} (p q : α → Bool)
    (himp : ∀ a, p a = true → q a = true) (l : List α) :
    l.dropWhile q = l.dropWhile p ∨
      ((l.dropWhile q).length < (l.dropWhile p).length ∧
        ∃ a rest, l.dropWhile p = a :: rest ∧ q a = true) := by
  induction l with
  | nil => exact Or.inl rfl
  | cons a l ih =>
    cases hp : p a with
    | true =>
      rw [List.dropWhile_cons_of_pos hp, List.dropWhile_cons_of_pos (himp a hp)]
      exact ih
    | false =>
      have hdp : List.dropWhile p (a :: l) = a :: l :=
        List.dropWhile_cons_of_neg (by simp [hp])
      cases hq : q a with
      | true =>
        have hdq : List.dropWhile q (a :: l) = List.dropWhile q l :=
          List.dropWhile_cons_of_pos hq
        rw [hdp, hdq]
        exact Or.inr ⟨Nat.lt_succ_of_le (dropWhile_length_le q l), a, l, rfl, hq⟩
      | false =>
        have hdq : List.dropWhile q (a :: l) = a :: l :=
          List.dropWhile_cons_of_neg (by simp [hq])
        rw [hdp, hdq]
        exact Or.inl rfl

/-- Every key in the coordinate table has at least 3 characters. -/
theorem table_keys_length : ∀ pr ∈ POSTCODE_COORDS, 3 ≤ pr.1.length := by decide

/-- No key in the coordinate table ends in a letter. -/
theorem table_keys_last : ∀ pr ∈ POSTCODE_COORDS,
    pr.1.getLast?.all (fun c => !isAlphaChar c) = true := by decide

/-- Looking up the code's key (rstrip without the letter I) and the spec's key
(strip all trailing letters) in the coordinate table gives the same result for
any slice of at most 3 characters: when the two keys differ, the code's key
ends in a letter and the spec's key is shorter than 3 characters, and no table
key is like that, so both lookups fall through to the default. -/
theorem getD_code_key_eq_spec_key (t : PyStr) (ht : t.length ≤ 3) (d : ℚ × ℚ) :
    assocGetD POSTCODE_COORDS (pyRstrip RSTRIP_LETTERS t) d =
      assocGetD POSTCODE_COORDS (stripTrailingAlphaSpec t) d := by
  have himp : ∀ c, (fun c => RSTRIP_LETTERS.contains c) c = true → isAlphaChar c = true := by
    intro c hc
    have := (rstrip_contains_iff c).mp hc
    simp only [isAlphaChar, decide_eq_true_eq]
    omega
  rcases dropWhile_imp_cases (fun c => RSTRIP_LETTERS.contains c) isAlphaChar himp t.reverse
    with heq | ⟨hlt, a, rest, hp, hqa⟩
  · unfold pyRstrip stripTrailingAlphaSpec
    rw [heq]
  · have hcode : pyRstrip RSTRIP_LETTERS t = rest.reverse ++ [a] := by
      unfold pyRstrip
      rw [hp, List.reverse_cons]
    have hlen_code : (t.reverse.dropWhile (fun c => RSTRIP_LETTERS.contains c)).length ≤ 3 := by
      calc (t.reverse.dropWhile (fun c => RSTRIP_LETTERS.contains c)).length
          ≤ t.reverse.length := dropWhile_length_le _ _
        _ ≤ 3 := by rw [List.length_reverse]; exact ht
    have hlen_spec : (stripTrailingAlphaSpec t).length < 3 := by
      unfold stripTrailingAlphaSpec
      rw [List.length_reverse]
      exact Nat.lt_of_lt_of_le hlt hlen_code
    rw [assocGetD_eq_default _ _ _ ?hA, assocGetD_eq_default _ _ _ ?hB]
    case hA =>
      intro pr hpr hk
      have hlast : (pyRstrip RSTRIP_LETTERS t).getLast? = some a := by
        rw [hcode]
        exact List.getLast?_concat _
      have := table_keys_last pr hpr
      rw [hk, hlast] at this
      simp only [Option.all_some, Bool.not_eq_true'] at this
      rw [hqa] at this
      exact Bool.noConfusion this
    case hB =>
      intro pr hpr hk
      have h3 := table_keys_length pr hpr
      rw [hk] at h3
      omega

/-- C2: for an input whose trimmed upper-cased form is longer than 3
characters, the returned pair is the table entry for the key obtained by
taking the first 3 characters and stripping all trailing alphabetic
characters, with the default pair when that key is absent; for normalized
forms of length at most 3 the normalized form itself is the key. -/
theorem C2_geocode_key_rule :
    (∀ s : PyStr, 3 < (pyUpper (pyStrip s)).length →
      coords_from_postcode_area (some s) =
        assocGetD POSTCODE_COORDS
          (stripTrailingAlphaSpec ((pyUpper (pyStrip s)).take 3)) DEFAULT_LON_LAT) ∧
    (∀ s : PyStr, (pyUpper (pyStrip s)).length ≤ 3 →
      coords_from_postcode_area (some s) =
        assocGetD POSTCODE_COORDS (pyUpper (pyStrip s)) DEFAULT_LON_LAT) := by
  constructor
  · intro s hlen
    have hs : s ≠ [] := by
      intro h
      rw [h] at hlen
      exact absurd hlen (by decide)
    simp only [coords_from_postcode_area, if_neg hs, lookupKey]
    rw [if_neg (by omega)]
    exact getD_code_key_eq_spec_key _
      (by rw [List.length_take]; exact min_le_left _ _) _
  · intro s hlen
    by_cases hs : s = []
    · rw [hs]
      have h0 : pyUpper (pyStrip []) = ([] : PyStr) := by decide
      rw [h0]
      decide
    · simp only [coords_from_postcode_area, if_neg hs, lookupKey, if_pos hlen]

/-- Witness for C2 at the concrete inputs "sw1a 2aa" (normalized length 8 > 3,
key "SW1") and "ZZ9" (normalized length 3). -/
theorem C2_geocode_key_rule_witness :
    (3 < (pyUpper (pyStrip (ps "sw1a 2aa"))).length ∧
      coords_from_postcode_area (some (ps "sw1a 2aa")) =
        assocGetD POSTCODE_COORDS
          (stripTrailingAlphaSpec ((pyUpper (pyStrip (ps "sw1a 2aa"))).take 3))
          DEFAULT_LON_LAT) ∧
    ((pyUpper (pyStrip (ps "ZZ9"))).length ≤ 3 ∧
      coords_from_postcode_area (some (ps "ZZ9")) =
        assocGetD POSTCODE_COORDS (pyUpper (pyStrip (ps "ZZ9"))) DEFAULT_LON_LAT) :=
  ⟨⟨by decide, C2_geocode_key_rule.1 (ps "sw1a 2aa") (by decide)⟩,
    ⟨by decide, C2_geocode_key_rule.2 (ps "ZZ9") (by decide)⟩⟩

/-- Upper-casing after lower-casing a code point equals plain upper-casing. -/
theorem upperChar_lowerChar (c : Nat) : upperChar (lowerChar c) = upperChar c := by
  unfold upperChar lowerChar
  split_ifs <;> omega

/-- Whitespace is unaffected by the lower-case map. -/
theorem isPySpace_lowerChar (c : Nat) : isPySpace (lowerChar c) = isPySpace c := by
  unfold isPySpace lowerChar
  split_ifs with h
  · exact decide_eq_decide.mpr (by omega)
  · rfl

/-- `pyStrip` commutes with the lower-case map. -/
theorem pyStrip_map_lower (l : PyStr) :
    pyStrip (l.map lowerChar) = (pyStrip l).map lowerChar := by
  have hpred : (isPySpace ∘ lowerChar) = isPySpace := funext isPySpace_lowerChar
  unfold pyStrip
  rw [List.dropWhile_map, hpred, ← List.map_reverse, List.dropWhile_map, hpred,
    ← List.map_reverse]

/-- Upper-casing a lower-cased string equals upper-casing the string. -/
theorem pyUpper_map_lower (l : PyStr) : pyUpper (l.map lowerChar) = pyUpper l := by
  unfold pyUpper
  rw [List.map_map]
  exact List.map_congr_left fun a _ => upperChar_lowerChar a

/-- Geocode Lookup is invariant under lower-casing the input. -/
theorem coords_map_lower (l : PyStr) :
    coords_from_postcode_area (some (l.map lowerChar)) =
      coords_from_postcode_area (some l) := by
  by_cases hl : l = []
  · rw [hl]
    rfl
  · have h2 : l.map lowerChar ≠ [] := by simp [hl]
    simp only [coords_from_postcode_area, if_neg hl, if_neg h2]
    rw [pyStrip_map_lower, pyUpper_map_lower]

/-- C7: Geocode Lookup is case-insensitive — inputs that agree after
lower-casing every character give the same pair; in particular "sw1" and
"SW1" yield identical coordinate pairs. -/
theorem C7_geocode_case_insensitive :
    (∀ l1 l2 : PyStr, l1.map lowerChar = l2.map lowerChar →
      coords_from_postcode_area (some l1) = coords_from_postcode_area (some l2)) ∧
    coords_from_postcode_area (some (ps "sw1")) =
      coords_from_postcode_area (some (ps "SW1")) := by
  refine ⟨?_, by decide⟩
  intro l1 l2 h
  rw [← coords_map_lower l1, ← coords_map_lower l2, h]

/-- Witness for C7 at the concrete inputs "sw1" and "SW1". -/
theorem C7_geocode_case_insensitive_witness :
    (ps "sw1").map lowerChar = (ps "SW1").map lowerChar ∧
      coords_from_postcode_area (some (ps "sw1")) =
        coords_from_postcode_area (some (ps "SW1")) :=
  ⟨by decide, C7_geocode_case_insensitive.1 (ps "sw1") (ps "SW1") (by decide)⟩

/-- C6: Geocode Lookup always produces a coordinate pair (either the default
pair or a table entry's pair); a missing outcode (`None`), an empty outcode,
and the out-of-table outcode "ZZ9" all yield the fixed default pair, which is
(51.5074, -0.1278). -/
theorem C6_geocode_total_default :
    (∀ o : Option PyStr, coords_from_postcode_area o = DEFAULT_LON_LAT ∨
      ∃ p ∈ POSTCODE_COORDS, coords_from_postcode_area o = p.2) ∧
    coords_from_postcode_area none = DEFAULT_LON_LAT ∧
    coords_from_postcode_area (some []) = DEFAULT_LON_LAT ∧
    coords_from_postcode_area (some (ps "ZZ9")) = DEFAULT_LON_LAT ∧
    DEFAULT_LON_LAT = (q4 515074, q4 (-1278)) := by
  refine ⟨?_, rfl, by decide, by decide, rfl⟩
  intro o
  match o with
  | none => exact Or.inl rfl
  | some s =>
    by_cases hs : s = []
    · simp only [coords_from_postcode_area, if_pos hs]
      exact Or.inl trivial
    · simp only [coords_from_postcode_area, if_neg hs]
      exact assocGetD_self_or_mem POSTCODE_COORDS _ DEFAULT_LON_LAT

/-- C10: the table entry under the 4-character key "SE11" is unreachable: every
computed lookup key has length at most 3, so no normalized input ever produces
the key "SE11"; the entry ("SE11" ↦ (51.4880, -0.1065)) is in the table, yet
the input "SE11" returns the pair stored under "SE1", namely (51.5050, -0.0850),
which differs from the "SE11" entry's pair. -/
theorem C10_se11_unreachable :
    (∀ oc : PyStr, (lookupKey oc).length ≤ 3) ∧
    (∀ s : PyStr, lookupKey (pyUpper (pyStrip s)) ≠ ps "SE11") ∧
    (∃ p ∈ POSTCODE_COORDS, p.1 = ps "SE11" ∧ p.2 = (q4 514880, q4 (-1065))) ∧
    coords_from_postcode_area (some (ps "SE11")) = (q4 515050, q4 (-850)) ∧
    assocGetD POSTCODE_COORDS (ps "SE1") DEFAULT_LON_LAT = (q4 515050, q4 (-850)) ∧
    ((q4 515050, q4 (-850)) : ℚ × ℚ) ≠ ((q4 514880, q4 (-1065)) : ℚ × ℚ) := by
  refine ⟨lookupKey_length_le, ?_, ?_, by decide, by decide, by decide⟩
  · intro s h
    have h1 := lookupKey_length_le (pyUpper (pyStrip s))
    rw [h] at h1
    exact absurd h1 (by decide)
  · refine ⟨(ps "SE11", (q4 514880, q4 (-1065))), ?_, rfl, rfl⟩
    decide

example : pyFloatOfStr (ps "51.5") = some (mkRat 515 10) := by decide

example : pyFloatOfStr (ps " 2 ") = some 2 := by decide

example : pyFloatOfStr (ps "abc") = Option.none := by decide

example : pyFloatOfStr (ps "1e2") = some 100 := by decide

example : pyFloatOfStr (ps "-3.25") = some (mkRat (-13) 4) := by decide

example : pyFloatOfStr (ps "") = Option.none := by decide

example : pyFloatOfStr (ps "1 2") = Option.none := by decide

/-- Setting a key then reading it back gives the new value. -/
theorem assocGetD_dictSet_self (d : PyDict) (k : PyStr) (v : Val) (dflt : Val) :
    assocGetD (dictSet d k v) k dflt = v := by
  induction d with
  | nil => simp [dictSet, assocGetD]
  | cons p d ih =>
    by_cases h : p.1 = k
    · simp [dictSet, h, assocGetD]
    · simp [dictSet, h, assocGetD, ih]

/-- Setting a key leaves every other key's value unchanged. -/
theorem assocGetD_dictSet_other (d : PyDict) (k k2 : PyStr) (v : Val) (dflt : Val)
    (h : k2 ≠ k) : assocGetD (dictSet d k v) k2 dflt = assocGetD d k2 dflt := by
  have hne : k ≠ k2 := fun he => h he.symm
  induction d with
  | nil => simp [dictSet, assocGetD, hne]
  | cons p d ih =>
    by_cases hp : p.1 = k
    · have hp2 : p.1 ≠ k2 := by rw [hp]; exact hne
      simp [dictSet, hp, assocGetD, hne, hp2]
    · simp [dictSet, hp, assocGetD, ih]

/-- `castFormVal` maps an existing float to itself. -/
theorem castFormVal_num (q : ℚ) : castFormVal (Val.num q) = some q := by
  unfold castFormVal
  rw [if_neg]
  · rfl
  · rintro (h | h) <;> exact Val.noConfusion h

/-- Folding the cast loop from an already-raised state stays raised. -/
theorem foldl_bind_none (ks : List PyStr) :
    ks.foldl (fun od k => od.bind fun d => castStep d k) Option.none = Option.none := by
  induction ks with
  | nil => rfl
  | cons k ks ih => simpa [List.foldl] using ih

/-- Unfolding one step of the cast loop. -/
theorem castFold_cons (k : PyStr) (ks : List PyStr) (d : PyDict) :
    castFold (k :: ks) d =
      match castStep d k with
      | Option.none => Option.none
      | some d1 => castFold ks d1 := by
  cases h : castStep d k with
  | none => simpa [castFold, List.foldl, h] using foldl_bind_none ks
  | some d1 => simp [castFold, List.foldl, h]

/-- A successful cast loop leaves keys outside the loop untouched. -/
theorem castFold_preserve (ks : List PyStr) (d d2 : PyDict)
    (h : castFold ks d = some d2) (k : PyStr) (hk : k ∉ ks) :
    assocGetD d2 k Val.none = assocGetD d k Val.none := by
  induction ks generalizing d with
  | nil =>
    cases h
    rfl
  | cons k0 ks ih =>
    rw [castFold_cons] at h
    cases hstep : castStep d k0 with
    | none =>
      rw [hstep] at h
      cases h
    | some d1 =>
      rw [hstep] at h
      obtain ⟨q0, _, hd1⟩ := Option.map_eq_some'.mp hstep
      have hk0 : k ≠ k0 := fun he => hk (he ▸ List.mem_cons_self _ _)
      have hks : k ∉ ks := fun hm => hk (List.mem_cons_of_mem _ hm)
      rw [ih d1 h hks, ← hd1, assocGetD_dictSet_other _ _ _ _ _ hk0]

/-- In a successful cast loop over distinct keys, each looped key's final
value is `Val.num` of the cast of its original value. -/
theorem castFold_get_of_some (ks : List PyStr) (hnd : ks.Nodup) (d d2 : PyDict)
    (h : castFold ks d = some d2) (k : PyStr) (hk : k ∈ ks) :
    ∃ q, castFormVal (assocGetD d k Val.none) = some q ∧
      assocGetD d2 k Val.none = Val.num q := by
  induction ks generalizing d with
  | nil => cases hk
  | cons k0 ks ih =>
    rw [castFold_cons] at h
    cases hstep : castStep d k0 with
    | none =>
      rw [hstep] at h
      cases h
    | some d1 =>
      rw [hstep] at h
      obtain ⟨q0, hq0, hd1⟩ := Option.map_eq_some'.mp hstep
      rcases List.mem_cons.mp hk with hkk | hkk
      · subst hkk
        refine ⟨q0, hq0, ?_⟩
        have hnotin : k ∉ ks := (List.nodup_cons.mp hnd).1
        rw [castFold_preserve ks d1 d2 h k hnotin, ← hd1, assocGetD_dictSet_self]
      · have hne : k ≠ k0 := by
          rintro rfl
          exact (List.nodup_cons.mp hnd).1 hkk
        obtain ⟨q, hq, hg⟩ := ih (List.nodup_cons.mp hnd).2 d1 h hkk
        refine ⟨q, ?_, hg⟩
        rw [← hq, ← hd1, assocGetD_dictSet_other _ _ _ _ _ hne]

/-- When every looped key's value casts, the cast loop succeeds. -/
theorem castFold_some_of_casts (ks : List PyStr) (d : PyDict)
    (h : ∀ k ∈ ks, castFormVal (assocGetD d k Val.none) ≠ Option.none) :
    ∃ d2, castFold ks d = some d2 := by
  induction ks generalizing d with
  | nil => exact ⟨d, rfl⟩
  | cons k0 ks ih =>
    cases hc : castFormVal (assocGetD d k0 Val.none) with
    | none => exact absurd hc (h k0 (List.mem_cons_self _ _))
    | some q =>
      have hstep : castStep d k0 = some (dictSet d k0 (Val.num q)) := by
        simp [castStep, hc]
      have harg : ∀ k ∈ ks,
          castFormVal (assocGetD (dictSet d k0 (Val.num q)) k Val.none) ≠ Option.none := by
        intro k hk
        by_cases he : k = k0
        · subst he
          rw [assocGetD_dictSet_self, castFormVal_num]
          exact Option.noConfusion
        · rw [assocGetD_dictSet_other _ _ _ _ _ he]
          exact h k (List.mem_cons_of_mem _ hk)
      obtain ⟨d2, hd2⟩ := ih (dictSet d k0 (Val.num q)) harg
      exact ⟨d2, by rw [castFold_cons, hstep]; exact hd2⟩

/-- Lookup in an association list built by pairing keys with a function. -/
theorem assocGetD_map_fn (l : List PyStr) (f : PyStr → Val) (k : PyStr) (dflt : Val) :
    assocGetD (l.map fun x => (x, f x)) k dflt = if k ∈ l then f k else dflt := by
  induction l with
  | nil => simp [assocGetD]
  | cons a l ih =>
    simp only [List.map_cons, assocGetD]
    by_cases h : a = k
    · subst h
      simp
    · have hne : k ≠ a := fun he => h he.symm
      rw [if_neg h, ih]
      simp [List.mem_cons, hne]

/-- A key matching no entry has no form value. -/
theorem assocGet?_eq_none {α β : Type} [DecidableEq α] (l : List (α × β)) (k : α)
    (h : ∀ p ∈ l, p.1 ≠ k) : assocGet? l k = Option.none := by
  induction l with
  | nil => rfl
  | cons p l ih =>
    have hp : p.1 ≠ k := h p (List.mem_cons_self p l)
    simp only [assocGet?, if_neg hp]
    exact ih fun q hq => h q (List.mem_cons_of_mem p hq)

/-- The value `data` holds at a non-lat/lon feature key is the submitted form
value, as `None` or a string. -/
theorem predict_form_data_get (form : List (PyStr × PyStr)) (k : PyStr)
    (hk : k ∈ FEATURES) (h1 : k ≠ ps "latitude") (h2 : k ≠ ps "longitude") :
    assocGetD (predict_form_data form) k Val.none =
      (assocGet? form k).elim Val.none Val.str := by
  unfold predict_form_data
  rw [assocGetD_map_fn, if_pos]
  exact List.mem_filter.mpr ⟨hk, by simp [h1, h2]⟩

/-- After the lat/lon auto-fill, any other key still holds its `data` value. -/
theorem data1_get_other (data0 : PyDict) (c : ℚ × ℚ) (k : PyStr)
    (h1 : k ≠ ps "latitude") (h2 : k ≠ ps "longitude") :
    assocGetD
        (dictSet (dictSet data0 (ps "latitude") (Val.num c.1)) (ps "longitude")
          (Val.num c.2)) k Val.none =
      assocGetD data0 k Val.none := by
  rw [assocGetD_dictSet_other _ _ _ _ _ h2, assocGetD_dictSet_other _ _ _ _ _ h1]

/-- After the auto-fill, `data["latitude"]` is the derived latitude. -/
theorem data1_get_lat (data0 : PyDict) (c : ℚ × ℚ) :
    assocGetD
        (dictSet (dictSet data0 (ps "latitude") (Val.num c.1)) (ps "longitude")
          (Val.num c.2)) (ps "latitude") Val.none =
      Val.num c.1 := by
  rw [assocGetD_dictSet_other _ _ _ _ _ (by decide), assocGetD_dictSet_self]

/-- After the auto-fill, `data["longitude"]` is the derived longitude. -/
theorem data1_get_lon (data0 : PyDict) (c : ℚ × ℚ) :
    assocGetD
        (dictSet (dictSet data0 (ps "latitude") (Val.num c.1)) (ps "longitude")
          (Val.num c.2)) (ps "longitude") Val.none =
      Val.num c.2 :=
  assocGetD_dictSet_self _ _ _ _

/-- C9: the rendered form submits the floor area under the name "floorAreaSQM"
while the handler reads the key "floorAreaSqM" (form lookup is
case-sensitive), so the names differ; consequently any submission whose field
names all come from the rendered form passes floorAreaSqM = 0.0 to the
predictor (position 2 of the row is the floorAreaSqM column). -/
theorem C9_floor_area_name_mismatch :
    (ps "floorAreaSQM" ∈ INDEX_HTML_FORM_FIELDS ∧
      ps "floorAreaSqM" ∉ INDEX_HTML_FORM_FIELDS ∧
      ps "floorAreaSqM" ∈ FEATURES ∧ ps "floorAreaSQM" ∉ FEATURES) ∧
    (∀ form : List (PyStr × PyStr), (∀ p ∈ form, p.1 ∈ INDEX_HTML_FORM_FIELDS) →
      ∀ row, predict_form form = some row → row[2]? = some (Val.num 0)) := by
  refine ⟨by decide, ?_⟩
  intro form hsub row hrow
  have hget : assocGet? form (ps "floorAreaSqM") = Option.none := by
    apply assocGet?_eq_none
    intro p hp he
    have hmem := hsub p hp
    rw [he] at hmem
    exact absurd hmem (by decide)
  simp only [predict_form, predict_form_core] at hrow
  obtain ⟨d2, hd2, hrow2⟩ := Option.map_eq_some'.mp hrow
  obtain ⟨q, hq, hgd2⟩ :=
    castFold_get_of_some NUMERIC_FIELDS (by decide) _ d2 hd2 (ps "floorAreaSqM") (by decide)
  rw [data1_get_other _ _ _ (by decide) (by decide),
    predict_form_data_get form _ (by decide) (by decide) (by decide), hget] at hq
  have hq0 : q = 0 := by
    have h0 : castFormVal ((Option.none : Option PyStr).elim Val.none Val.str) =
        some (0 : ℚ) := rfl
    rw [h0] at hq
    exact (Option.some_inj.mp hq).symm
  subst hq0
  rw [← hrow2]
  simp only [toModelRow, FEATURES, List.map_cons, List.getElem?_cons_succ,
    List.getElem?_cons_zero]
  rw [hgd2]

/-- C8: in the form pathway the latitude/longitude of the feature record are
derived from the submitted postcodeArea alone: two forms agreeing on every
field other than "latitude"/"longitude" produce the same outcome (hence the
same prediction under any predictor), and in any successful row positions 0/1
(the latitude/longitude columns) hold exactly the geocoded pair of the
submitted postcodeArea. -/
theorem C8_latlon_derived_not_submitted :
    (∀ f1 f2 : List (PyStr × PyStr),
      (∀ k : PyStr, k ≠ ps "latitude" → k ≠ ps "longitude" →
        assocGet? f1 k = assocGet? f2 k) →
      predict_form f1 = predict_form f2 ∧
        ∀ P : List Val → ℚ, (predict_form f1).map P = (predict_form f2).map P) ∧
    (∀ form row, predict_form form = some row →
      row[0]? =
          some (Val.num (coords_from_postcode_area (assocGet? form (ps "postcodeArea"))).1) ∧
        row[1]? =
          some (Val.num (coords_from_postcode_area (assocGet? form (ps "postcodeArea"))).2)) := by
  constructor
  · intro f1 f2 h
    have hdata : predict_form_data f1 = predict_form_data f2 := by
      unfold predict_form_data
      apply List.map_congr_left
      intro k hk
      have hcond := of_decide_eq_true (List.mem_filter.mp hk).2
      rw [h k hcond.1 hcond.2]
    have hpc := h (ps "postcodeArea") (by decide) (by decide)
    refine ⟨?_, fun P => ?_⟩ <;>
      · unfold predict_form
        rw [hdata, hpc]
  · intro form row hrow
    simp only [predict_form, predict_form_core] at hrow
    obtain ⟨d2, hd2, hrow2⟩ := Option.map_eq_some'.mp hrow
    obtain ⟨qa, hqa, hga⟩ :=
      castFold_get_of_some NUMERIC_FIELDS (by decide) _ d2 hd2 (ps "latitude") (by decide)
    obtain ⟨qb, hqb, hgb⟩ :=
      castFold_get_of_some NUMERIC_FIELDS (by decide) _ d2 hd2 (ps "longitude") (by decide)
    rw [data1_get_lat, castFormVal_num] at hqa
    rw [data1_get_lon, castFormVal_num] at hqb
    have ha : qa = (coords_from_postcode_area (assocGet? form (ps "postcodeArea"))).1 :=
      (Option.some_inj.mp hqa).symm
    have hb : qb = (coords_from_postcode_area (assocGet? form (ps "postcodeArea"))).2 :=
      (Option.some_inj.mp hqb).symm
    subst ha hb
    rw [← hrow2]
    simp only [toModelRow, FEATURES, List.map_cons, List.getElem?_cons_succ,
      List.getElem?_cons_zero]
    rw [hga, hgb]
    exact ⟨rfl, rfl⟩

/-- Witness for C9: a full submission through the rendered field names; the
entered floor area "85" never reaches the predictor, which receives 0.0. -/
theorem C9_floor_area_name_mismatch_witness :
    (∀ p ∈ C9_renderedForm, p.1 ∈ INDEX_HTML_FORM_FIELDS) ∧
    predict_form C9_renderedForm = some C9_renderedRow ∧
    C9_renderedRow[2]? = some (Val.num 0) :=
  ⟨by decide, by decide,
    C9_floor_area_name_mismatch.2 C9_renderedForm (by decide) C9_renderedRow (by decide)⟩

/-- Witness for C8: two forms differing only in a submitted "latitude" field
produce the same outcome, and a successful row carries the geocoded pair. -/
theorem C8_latlon_derived_not_submitted_witness :
    (assocGet? C8_form1 (ps "latitude") = some (ps "0") ∧
      assocGet? C8_form2 (ps "latitude") = some (ps "99") ∧
      predict_form C8_form1 = predict_form C8_form2) ∧
    (predict_form C8_form1 = some C8_row ∧
      C8_row[0]? =
          some (Val.num (coords_from_postcode_area (assocGet? C8_form1 (ps "postcodeArea"))).1) ∧
        C8_row[1]? =
          some (Val.num (coords_from_postcode_area (assocGet? C8_form1 (ps "postcodeArea"))).2)) := by
  have hagree : ∀ k : PyStr, k ≠ ps "latitude" → k ≠ ps "longitude" →
      assocGet? C8_form1 k = assocGet? C8_form2 k := by
    intro k h1 h2
    have hne : ¬(ps "latitude" = k) := fun he => h1 he.symm
    simp only [C8_form1, C8_form2, assocGet?, if_neg hne]
  refine ⟨⟨by decide, by decide,
    (C8_latlon_derived_not_submitted.1 C8_form1 C8_form2 hagree).1⟩,
    by decide, C8_latlon_derived_not_submitted.2 C8_form1 C8_row (by decide)⟩

/-- C1 counterexample: in `C1_badForm` the numeric field "bedrooms" carries
the non-empty, non-numeric value "abc"; `float("abc")` raises, so
`predict_form` raises (an uncaught error, not a coercion to 0.0). -/
theorem C1_counterexample_nonnumeric_raises :
    assocGet? C1_badForm (ps "bedrooms") = some (ps "abc") ∧
    ps "abc" ≠ [] ∧
    pyFloatOfStr (ps "abc") = Option.none ∧
    predict_form C1_badForm = Option.none := by decide

/-- A form value that is missing, empty, or float-parseable never makes the
cast raise. -/
theorem castFormVal_elim_ne_none (o : Option PyStr)
    (h : ∀ v, o = some v → v ≠ [] → pyFloatOfStr v ≠ Option.none) :
    castFormVal (o.elim Val.none Val.str) ≠ Option.none := by
  cases o with
  | none => decide
  | some v =>
    by_cases hv : v = []
    · subst hv
      decide
    · have hp := h v rfl hv
      show castFormVal (Val.str v) ≠ Option.none
      unfold castFormVal
      rw [if_neg]
      · exact hp
      · rintro (hh | hh)
        · exact Val.noConfusion hh
        · injection hh with hh2
          exact hv hh2

/-- In a successful form run, a looped key submitted empty or not at all ends
as the float 0.0 in the dict. -/
theorem row_zero_of_empty (form : List (PyStr × PyStr)) (d2 : PyDict) (c : ℚ × ℚ)
    (hd2 : castFold NUMERIC_FIELDS
      (dictSet (dictSet (predict_form_data form) (ps "latitude") (Val.num c.1))
        (ps "longitude") (Val.num c.2)) = some d2)
    (k : PyStr) (hk1 : k ∈ NUMERIC_FIELDS) (hk2 : k ∈ FEATURES)
    (h1 : k ≠ ps "latitude") (h2 : k ≠ ps "longitude")
    (he : assocGet? form k = Option.none ∨ assocGet? form k = some []) :
    assocGetD d2 k Val.none = Val.num 0 := by
  obtain ⟨q, hq, hg⟩ := castFold_get_of_some NUMERIC_FIELDS (by decide) _ d2 hd2 k hk1
  rw [data1_get_other _ _ _ h1 h2, predict_form_data_get form _ hk2 h1 h2] at hq
  have hq0 : q = 0 := by
    rcases he with he | he <;> rw [he] at hq
    · have h0 : castFormVal ((Option.none : Option PyStr).elim Val.none Val.str) =
          some (0 : ℚ) := rfl
      rw [h0] at hq
      exact (Option.some_inj.mp hq).symm
    · have h0 : castFormVal ((some ([] : PyStr)).elim Val.none Val.str) =
          some (0 : ℚ) := rfl
      rw [h0] at hq
      exact (Option.some_inj.mp hq).symm
  rw [hg, hq0]

/-- C1 amended: in the form pathway, an empty or missing value of a numeric
field is silently coerced to 0.0, and the request succeeds whenever every
submitted numeric-field value is empty or float-parseable; but (per the
counterexample) a non-empty unparseable value raises instead of being
coerced.  Row positions 2/3/4/5 are the floorAreaSqM, bedrooms, bathrooms and
livingRooms columns. -/
theorem C1_amended_form_cast (form : List (PyStr × PyStr))
    (h : ∀ k ∈ [ps "floorAreaSqM", ps "bedrooms", ps "bathrooms", ps "livingRooms"],
      ∀ v, assocGet? form k = some v → v ≠ [] → pyFloatOfStr v ≠ Option.none) :
    ∃ row, predict_form form = some row ∧
      ((assocGet? form (ps "floorAreaSqM") = Option.none ∨
          assocGet? form (ps "floorAreaSqM") = some []) → row[2]? = some (Val.num 0)) ∧
      ((assocGet? form (ps "bedrooms") = Option.none ∨
          assocGet? form (ps "bedrooms") = some []) → row[3]? = some (Val.num 0)) ∧
      ((assocGet? form (ps "bathrooms") = Option.none ∨
          assocGet? form (ps "bathrooms") = some []) → row[4]? = some (Val.num 0)) ∧
      ((assocGet? form (ps "livingRooms") = Option.none ∨
          assocGet? form (ps "livingRooms") = some []) → row[5]? = some (Val.num 0)) := by
  have hc : ∀ k ∈ NUMERIC_FIELDS,
      castFormVal (assocGetD
        (dictSet (dictSet (predict_form_data form) (ps "latitude")
            (Val.num (coords_from_postcode_area (assocGet? form (ps "postcodeArea"))).1))
          (ps "longitude")
          (Val.num (coords_from_postcode_area (assocGet? form (ps "postcodeArea"))).2))
        k Val.none) ≠ Option.none := by
    intro k hk
    simp only [NUMERIC_FIELDS, List.mem_cons, List.not_mem_nil, or_false] at hk
    rcases hk with rfl | rfl | rfl | rfl | rfl | rfl
    · rw [data1_get_lat, castFormVal_num]
      exact Option.noConfusion
    · rw [data1_get_lon, castFormVal_num]
      exact Option.noConfusion
    · rw [data1_get_other _ _ _ (by decide) (by decide),
        predict_form_data_get form _ (by decide) (by decide) (by decide)]
      exact castFormVal_elim_ne_none _ (h _ (by decide))
    · rw [data1_get_other _ _ _ (by decide) (by decide),
        predict_form_data_get form _ (by decide) (by decide) (by decide)]
      exact castFormVal_elim_ne_none _ (h _ (by decide))
    · rw [data1_get_other _ _ _ (by decide) (by decide),
        predict_form_data_get form _ (by decide) (by decide) (by decide)]
      exact castFormVal_elim_ne_none _ (h _ (by decide))
    · rw [data1_get_other _ _ _ (by decide) (by decide),
        predict_form_data_get form _ (by decide) (by decide) (by decide)]
      exact castFormVal_elim_ne_none _ (h _ (by decide))
  obtain ⟨d2, hd2⟩ := castFold_some_of_casts NUMERIC_FIELDS _ hc
  refine ⟨toModelRow d2, ?_, ?_, ?_, ?_, ?_⟩
  · simp only [predict_form, predict_form_core]
    rw [hd2]
    rfl
  · intro he
    simp only [toModelRow, FEATURES, List.map_cons, List.getElem?_cons_succ,
      List.getElem?_cons_zero]
    rw [row_zero_of_empty form _ _ hd2 _ (by decide) (by decide) (by decide) (by decide) he]
  · intro he
    simp only [toModelRow, FEATURES, List.map_cons, List.getElem?_cons_succ,
      List.getElem?_cons_zero]
    rw [row_zero_of_empty form _ _ hd2 _ (by decide) (by decide) (by decide) (by decide) he]
  · intro he
    simp only [toModelRow, FEATURES, List.map_cons, List.getElem?_cons_succ,
      List.getElem?_cons_zero]
    rw [row_zero_of_empty form _ _ hd2 _ (by decide) (by decide) (by decide) (by decide) he]
  · intro he
    simp only [toModelRow, FEATURES, List.map_cons, List.getElem?_cons_succ,
      List.getElem?_cons_zero]
    rw [row_zero_of_empty form _ _ hd2 _ (by decide) (by decide) (by decide) (by decide) he]

/-- Witness for the amended C1 at the empty form: every numeric field is
missing, the request succeeds, and the numeric features are all 0.0. -/
theorem C1_amended_form_cast_witness :
    predict_form ([] : List (PyStr × PyStr)) =
      some [Val.num (q4 515074), Val.num (q4 (-1278)), Val.num 0, Val.num 0,
        Val.num 0, Val.num 0, Val.none, Val.none, Val.none, Val.none] ∧
    (∃ row, predict_form ([] : List (PyStr × PyStr)) = some row ∧
      ((assocGet? ([] : List (PyStr × PyStr)) (ps "floorAreaSqM") = Option.none ∨
          assocGet? ([] : List (PyStr × PyStr)) (ps "floorAreaSqM") = some []) →
        row[2]? = some (Val.num 0)) ∧
      ((assocGet? ([] : List (PyStr × PyStr)) (ps "bedrooms") = Option.none ∨
          assocGet? ([] : List (PyStr × PyStr)) (ps "bedrooms") = some []) →
        row[3]? = some (Val.num 0)) ∧
      ((assocGet? ([] : List (PyStr × PyStr)) (ps "bathrooms") = Option.none ∨
          assocGet? ([] : List (PyStr × PyStr)) (ps "bathrooms") = some []) →
        row[4]? = some (Val.num 0)) ∧
      ((assocGet? ([] : List (PyStr × PyStr)) (ps "livingRooms") = Option.none ∨
          assocGet? ([] : List (PyStr × PyStr)) (ps "livingRooms") = some []) →
        row[5]? = some (Val.num 0))) :=
  ⟨by decide, C1_amended_form_cast [] fun k hk v hv => Option.noConfusion hv⟩

/-- The missing-key test of one feature, as the code's `any` check. -/
theorem not_any_key_iff (payload : PyDict) (f : PyStr) :
    (!(payload.any fun p => decide (p.1 = f))) = true ↔ ∀ p ∈ payload, p.1 ≠ f := by
  simp [List.any_eq_true]

/-- C4: `POST /predict` responds 400 iff some required feature key is absent
from the payload, and the 400's missing-field list holds exactly the absent
required keys; with all ten keys present the response is never a 400. -/
theorem C4_predict_400_iff (payload : PyDict) :
    ((∃ ms, predict payload = PredictResp.badRequest ms) ↔
      ∃ f ∈ FEATURES, ∀ p ∈ payload, p.1 ≠ f) ∧
    (∀ ms, predict payload = PredictResp.badRequest ms →
      ∀ f, f ∈ ms ↔ (f ∈ FEATURES ∧ ∀ p ∈ payload, p.1 ≠ f)) := by
  by_cases hm : FEATURES.filter (fun f => !(payload.any fun p => decide (p.1 = f))) = []
  · have hnone : ∀ ms, predict payload ≠ PredictResp.badRequest ms := by
      intro ms
      simp only [predict]
      rw [if_neg fun hcon => hcon hm]
      cases hfold : NUMERIC_FIELDS.foldl
          (fun od k => od.bind fun d => jsonCastStep d k)
          (some (FEATURES.map fun k => (k, assocGetD payload k Val.none))) with
      | none => exact fun hh => PredictResp.noConfusion hh
      | some d => exact fun hh => PredictResp.noConfusion hh
    refine ⟨⟨fun ⟨ms, hms⟩ => absurd hms (hnone ms), ?_⟩,
      fun ms hms => absurd hms (hnone ms)⟩
    rintro ⟨f, hf, habs⟩
    exact absurd hm (List.ne_nil_of_mem
      (List.mem_filter.mpr ⟨hf, (not_any_key_iff payload f).mpr habs⟩))
  · have hbad : predict payload =
        PredictResp.badRequest
          (FEATURES.filter fun f => !(payload.any fun p => decide (p.1 = f))) := by
      simp only [predict]
      rw [if_pos hm]
    refine ⟨⟨fun _ => ?_, fun _ => ⟨_, hbad⟩⟩, ?_⟩
    · obtain ⟨f, hf⟩ := List.exists_mem_of_ne_nil _ hm
      have hmf := List.mem_filter.mp hf
      exact ⟨f, hmf.1, (not_any_key_iff payload f).mp hmf.2⟩
    · intro ms hms f
      have hmseq : ms =
          FEATURES.filter fun f => !(payload.any fun p => decide (p.1 = f)) :=
        (PredictResp.badRequest.inj (hbad.symm.trans hms)).symm
      rw [hmseq, List.mem_filter, not_any_key_iff]

/-- Witness for C4 at a payload missing exactly "postcodeArea". -/
theorem C4_predict_400_iff_witness :
    predict C4_payload = PredictResp.badRequest [ps "postcodeArea"] ∧
    (ps "postcodeArea" ∈ [ps "postcodeArea"] ↔
      (ps "postcodeArea" ∈ FEATURES ∧ ∀ p ∈ C4_payload, p.1 ≠ ps "postcodeArea")) :=
  ⟨by decide,
    (C4_predict_400_iff C4_payload).2 [ps "postcodeArea"] (by decide) (ps "postcodeArea")⟩

/-- C3 counterexample: at a concrete warm cache, the operation completes
normally but its return value is `None`, not the cache path — the source
function has no `return` statement in either branch. -/
theorem C3_counterexample_returns_none :
    (download_model_if_needed (some [1]) (Except.ok [])).2.2 = CacheResult.ok Option.none ∧
    (download_model_if_needed (some [1]) (Except.ok [])).2.2 ≠
      CacheResult.ok (some MODEL_PATH) := by
  decide

/-- C3 amended: the cache-ensure operation completes normally returning
`None` — immediately and with no effects when the file is already present,
and on completion of the download on a cold cache, after which the cache
file exists; callers take the cache location from the module constant
`MODEL_PATH`, not from a return value. -/
theorem C3_ensure_cached_completes :
    (∀ (content : List Nat) (remote : Except Unit (List Chunk)),
      (download_model_if_needed (some content) remote).2.2 = CacheResult.ok Option.none ∧
        (download_model_if_needed (some content) remote).1 = []) ∧
    (∀ chunks : List Chunk,
      (download_model_if_needed Option.none (Except.ok chunks)).2.2 =
          CacheResult.ok Option.none ∧
        (download_model_if_needed Option.none (Except.ok chunks)).2.1 ≠ Option.none) :=
  ⟨fun _ _ => ⟨rfl, rfl⟩, fun _ => ⟨rfl, fun hh => Option.noConfusion hh⟩⟩

/-- C5: a warm cache performs zero fetches and leaves the cached content
unchanged; a cold cache performs exactly one fetch, whatever the remote
delivers. -/
theorem C5_cache_frame :
    (∀ (content : List Nat) (remote : Except Unit (List Chunk)),
      countFetch (download_model_if_needed (some content) remote).1 = 0 ∧
        (download_model_if_needed (some content) remote).2.1 = some content) ∧
    (∀ remote : Except Unit (List Chunk),
      countFetch (download_model_if_needed Option.none remote).1 = 1) := by
  refine ⟨fun _ _ => ⟨rfl, rfl⟩, ?_⟩
  intro remote
  cases remote with
  | error e => rfl
  | ok chunks =>
    have hw : ((chunks.filter fun c => decide (c ≠ [])).map CacheEvent.write).filter
        (fun e => decide (e = CacheEvent.fetch)) = [] := by
      rw [List.filter_eq_nil_iff]
      intro a ha
      obtain ⟨c, _, rfl⟩ := List.mem_map.mp ha
      simp
    show countFetch (CacheEvent.fetch ::
        (chunks.filter fun c => decide (c ≠ [])).map CacheEvent.write) = 1
    unfold countFetch
    rw [List.filter_cons_of_pos (by decide), hw]
    rfl

end LondonHouse
